import Mathlib

set_option maxHeartbeats 1000000

/-
Verification of the QuickCurrency asset-generation scripts.

The development shallowly embeds the two Python scripts
scripts/create-icons.py and scripts/create-store-assets.py.
Each PIL drawing call is modelled as a command appended to a display
list; a Canvas records the mode, dimensions, background fill and the
ordered list of drawing commands.  Machine floats of the source are
modelled by exact rational arithmetic, and int() truncation by pyInt
(truncation toward zero, which on the nonnegative values arising here
coincides with the floor).  Fallible operations (font loading, text
measurement) are driven by a FontEnv describing which system resources
are available; exceptions are modelled with Except.
-/

namespace QuickCurrencySpec

/-- An RGB color triple of channel values. -/
abbrev RGB := ℕ × ℕ × ℕ

/-- A PIL fill or outline argument: an RGB tuple, an RGBA tuple, a hex
string such as "#2563eb", or absent (None). -/
inductive PColor where
  | rgb (r g b : ℕ)
  | rgba (r g b a : ℕ)
  | hex (s : String)
  | noFill
deriving DecidableEq

/-- A font handle: either a truetype font loaded from a path at a pixel
size, or the PIL built-in default font. -/
inductive Font where
  | truetype (path : String) (size : ℕ)
  | default
deriving DecidableEq

/-- The environment of font resources: which truetype files load at
which sizes, and what bounding box textbbox reports (none when the call
raises). -/
structure FontEnv where
  load : String → ℕ → Bool
  bbox : Font → String → Option (ℤ × ℤ × ℤ × ℤ)

/-- An environment in which no truetype font loads and every textbbox
call raises. -/
def noFonts : FontEnv := ⟨fun _ _ => false, fun _ _ => none⟩

/-- An environment in which every truetype font loads and textbbox
always reports the box (0, 0, 10, 10). -/
def allFonts : FontEnv := ⟨fun _ _ => true, fun _ _ => some (0, 0, 10, 10)⟩

/-- One drawing command of the display list.  The paste and blur
commands carry the full contents of their source image inline. -/
inductive DrawOp where
  | ellipse (x0 y0 x1 y1 : ℤ) (fill : PColor) (outline : PColor) (width : ℕ)
  | line (x0 y0 x1 y1 : ℤ) (fill : PColor) (width : ℕ)
  | polygon (pts : List (ℤ × ℤ)) (fill : PColor)
  | text (x y : ℤ) (s : String) (fill : PColor) (font : Font)
  | rectangle (x0 y0 x1 y1 : ℤ) (fill : PColor)
  | roundedRectangle (x0 y0 x1 y1 : ℤ) (radius : ℕ) (fill : PColor)
  | paste (srcMode : String) (srcW srcH : ℕ) (srcBg : PColor) (srcOps : List DrawOp)
      (x y : ℤ) (withMask : Bool)
  | blur (srcOps : List DrawOp) (radius : ℕ)

/-- An in-memory image: mode, dimensions, the fill Image.new was given,
and the drawing commands applied so far, oldest first. -/
structure Canvas where
  mode : String
  width : ℕ
  height : ℕ
  bg : PColor
  ops : List DrawOp

/-- Append one drawing command. -/
def Canvas.addOp (c : Canvas) (op : DrawOp) : Canvas :=
  ⟨c.mode, c.width, c.height, c.bg, c.ops ++ [op]⟩

/-- Append a list of drawing commands. -/
def Canvas.addOps (c : Canvas) (l : List DrawOp) : Canvas :=
  ⟨c.mode, c.width, c.height, c.bg, c.ops ++ l⟩

/-- The fill color of a drawing command (noFill for paste and blur). -/
def DrawOp.fillOf : DrawOp → PColor
  | .ellipse _ _ _ _ fill _ _ => fill
  | .line _ _ _ _ fill _ => fill
  | .polygon _ fill => fill
  | .text _ _ _ fill _ => fill
  | .rectangle _ _ _ _ fill => fill
  | .roundedRectangle _ _ _ _ _ fill => fill
  | .paste _ _ _ _ _ _ _ _ => .noFill
  | .blur _ _ => .noFill

/-- Whether some drawing command of the canvas uses the given fill. -/
def Canvas.usesFill (c : Canvas) (col : PColor) : Bool :=
  c.ops.any fun op => op.fillOf == col

/-- The positions of the text commands drawing the given string. -/
def Canvas.textOps (c : Canvas) (s : String) : List (ℤ × ℤ) :=
  c.ops.filterMap fun op =>
    match op with
    | .text x y t _ _ => if t = s then some (x, y) else none
    | _ => none

/-- The fill of the y-th drawing command, when it is a line command;
used to read off the row colors of a gradient. -/
def Canvas.rowFill (c : Canvas) (y : ℕ) : PColor :=
  match c.ops[y]? with
  | some (.line _ _ _ _ fill _) => fill
  | _ => .noFill

/-- Python int() applied to a rational: truncation toward zero. -/
def pyInt (q : ℚ) : ℤ := if 0 ≤ q then ⌊q⌋ else ⌈q⌉

/-- The font path tried first by both scripts. -/
def helveticaPath : String := "/System/Library/Fonts/Helvetica.ttc"

/-- The value of one hexadecimal digit character. -/
def hexDigit (c : Char) : ℕ :=
  if 97 ≤ c.toNat then c.toNat - 87
  else if 65 ≤ c.toNat then c.toNat - 55
  else c.toNat - 48

namespace Store

/-- Chrome Web Store screenshot dimensions. -/
def SCREENSHOT_SIZE : ℕ × ℕ := (1280, 800)

/-- Chrome Web Store small promo tile dimensions. -/
def PROMO_TILE_SIZE : ℕ × ℕ := (440, 280)

def PRIMARY_GRADIENT_START : String := "#2563eb"

def PRIMARY_GRADIENT_END : String := "#1e40af"

def ACCENT : String := "#10b981"

def WHITE : String := "#ffffff"

def TEXT_DARK : String := "#0f172a"

/-- hex_to_rgb of create-store-assets.py: strip leading hash signs and
read three two-digit hexadecimal channels. -/
def hex_to_rgb (hex_color : String) : RGB :=
  match hex_color.data.dropWhile (· == '#') with
  | [r1, r2, g1, g2, b1, b2] =>
      (16 * hexDigit r1 + hexDigit r2, 16 * hexDigit g1 + hexDigit g2,
       16 * hexDigit b1 + hexDigit b2)
  | _ => (0, 0, 0)

/-- Clamping to the unit interval, as ratio = min(1.0, max(0.0, ratio)). -/
def clamp01 (q : ℚ) : ℚ := min 1 (max 0 q)

/-- The raw per-row gradient ratio (y / height + 0.3) / 1.3 before
clamping. -/
def gradientRatio (y height : ℕ) : ℚ :=
  ((y : ℚ) / (height : ℚ) + 3 / 10) / (13 / 10)

/-- One interpolated channel: int(a + (b - a) * t). -/
def interpChannel (a b : ℕ) (t : ℚ) : ℕ :=
  (pyInt ((a : ℚ) + ((b : ℚ) - (a : ℚ)) * t)).toNat

/-- The color the gradient loop computes for row y of a canvas of the
given height. -/
def gradientRowColor (start_rgb end_rgb : RGB) (y height : ℕ) : RGB :=
  let ratio := clamp01 (gradientRatio y height)
  (interpChannel start_rgb.1 end_rgb.1 ratio,
   interpChannel start_rgb.2.1 end_rgb.2.1 ratio,
   interpChannel start_rgb.2.2 end_rgb.2.2 ratio)

/-- An RGB triple as a PIL fill argument. -/
def rgbFill (c : RGB) : PColor := .rgb c.1 c.2.1 c.2.2

/-- create_gradient_background: an RGB canvas of the requested size
whose rows are horizontal lines colored by the clamped-ratio linear
interpolation. -/
def create_gradient_background (size : ℕ × ℕ) (start_color end_color : String) : Canvas :=
  let width := size.1
  let height := size.2
  let start_rgb := hex_to_rgb start_color
  let end_rgb := hex_to_rgb end_color
  ⟨"RGB", width, height, .rgb 0 0 0,
    (List.range height).map fun (y : ℕ) =>
      .line 0 (y : ℤ) (width : ℤ) (y : ℤ)
        (rgbFill (gradientRowColor start_rgb end_rgb y height)) 0⟩

/-- The rounded rectangle command issued by draw_rounded_rectangle and
by direct rounded_rectangle calls. -/
def rounded_rect_op (x0 y0 x1 y1 : ℤ) (radius : ℕ) (fill : PColor) : DrawOp :=
  .roundedRectangle x0 y0 x1 y1 radius fill

/-- draw_rounded_rectangle of create-store-assets.py: despite the
signature, the body only draws the rounded rectangle; the shadow
argument is never read. -/
def draw_rounded_rectangle (c : Canvas) (xy : ℤ × ℤ × ℤ × ℤ) (radius : ℕ)
    (fill : PColor) (shadow : Bool) : Canvas :=
  c.addOp (rounded_rect_op xy.1 xy.2.1 xy.2.2.1 xy.2.2.2 radius fill)

/-- The exceptions the store-asset script can encounter: a truetype
load failure inside ImageFont.truetype, or a textbbox failure. -/
inductive PyExc where
  | fontLoad
  | textMetrics
deriving DecidableEq

/-- One try/except font block: attempt every requested truetype load
and, when any of them raises, substitute the default font for all the
variables of the block.  The exception never escapes. -/
def tryFonts (env : FontEnv) (reqs : List (String × ℕ)) : List Font :=
  if reqs.all (fun r => env.load r.1 r.2) then
    reqs.map fun r => Font.truetype r.1 r.2
  else
    reqs.map fun _ => Font.default

/-- Fonts requested by the try block of create_mock_popup:
bold 16, regular 14, small 12, large 32. -/
def popupFontReqs : List (String × ℕ) :=
  [(helveticaPath, 16), (helveticaPath, 14), (helveticaPath, 12), (helveticaPath, 32)]

/-- Fonts requested by the try block of create_screenshot_1:
title 56, subtitle 28. -/
def screenshot1FontReqs : List (String × ℕ) :=
  [(helveticaPath, 56), (helveticaPath, 28)]

/-- Fonts requested by the try block of create_screenshot_2:
title 56, subtitle 28, currency 24. -/
def screenshot2FontReqs : List (String × ℕ) :=
  [(helveticaPath, 56), (helveticaPath, 28), (helveticaPath, 24)]

/-- Fonts requested by the try block of create_screenshot_3:
title 56, subtitle 28. -/
def screenshot3FontReqs : List (String × ℕ) :=
  [(helveticaPath, 56), (helveticaPath, 28)]

/-- Fonts requested by the try block of create_promo_tile:
title 32, subtitle 18, symbol 48. -/
def promoTileFontReqs : List (String × ℕ) :=
  [(helveticaPath, 32), (helveticaPath, 18), (helveticaPath, 48)]

/-- Every place in create-store-assets.py where a font loading failure
is caught and replaced by the default font, with the loads the try
block attempts. -/
def fontFallbackSites : List (String × List (String × ℕ)) :=
  [("create_mock_popup", popupFontReqs),
   ("create_screenshot_1", screenshot1FontReqs),
   ("create_screenshot_2", screenshot2FontReqs),
   ("create_screenshot_3", screenshot3FontReqs),
   ("create_promo_tile", promoTileFontReqs)]

/-- The four fonts of create_mock_popup (bold, regular, small, large). -/
def popupFonts (env : FontEnv) : Font × Font × Font × Font :=
  match tryFonts env popupFontReqs with
  | [a, b, c, d] => (a, b, c, d)
  | _ => (.default, .default, .default, .default)

/-- The color of row i of the 100-row result card gradient inside the
mock popup. -/
def resultCardColor (i : ℕ) : RGB :=
  (interpChannel 37 30 ((i : ℚ) / 100),
   interpChannel 99 64 ((i : ℚ) / 100),
   interpChannel 235 175 ((i : ℚ) / 100))

/-- The quick-access chips of the mock popup. -/
def popupCurrencies : List String := ["USD", "EUR", "GBP", "JPY", "CAD"]

/-- One quick-access chip and its label; chip i is highlighted when
i = 1. -/
def popupChipOps (font_small : Font) : List DrawOp :=
  (popupCurrencies.enum.map fun p =>
    let i := p.1
    let curr := p.2
    let btn_x : ℤ := 16 + (i : ℤ) * 58
    let fill_color : PColor :=
      if i = 1 then .hex PRIMARY_GRADIENT_START else .hex "#f8fafc"
    let text_color : PColor := if i = 1 then .hex WHITE else .hex "#64748b"
    [rounded_rect_op btn_x 430 (btn_x + 50) (430 + 28) 14 fill_color,
     .text (btn_x + 12) (430 + 6) curr text_color font_small]).flatten

/-- The drawing commands of the mock popup in source order, given the
canvas width and the measured width of the Save to History label. -/
def popupOps (env : FontEnv) (W : ℤ) (save_text_width : ℤ) : List DrawOp :=
  let fonts := popupFonts env
  let font_bold := fonts.1
  let font_regular := fonts.2.1
  let font_small := fonts.2.2.1
  let font_large := fonts.2.2.2
  [.text 16 16 "QuickCurrency" (.hex TEXT_DARK) font_bold,
   .line 16 56 (W - 16) 56 (.hex "#e2e8f0") 1,
   .text 16 76 "AMOUNT" (.hex "#64748b") font_small,
   rounded_rect_op 16 96 (W - 16) 140 8 (.hex "#f8fafc"),
   .rectangle 17 97 56 139 (.hex "#f1f5f9"),
   .text 28 108 "$" (.hex "#64748b") font_regular,
   .text 68 104 "1,000.00" (.hex TEXT_DARK) font_bold,
   .text 16 156 "FROM" (.hex "#64748b") font_small,
   .text (W.fdiv 2 + 10) 156 "TO" (.hex "#64748b") font_small,
   rounded_rect_op 16 176 (W.fdiv 2 - 25) 216 8 (.hex "#f8fafc"),
   .text 28 186 "USD - US Dollar" (.hex TEXT_DARK) font_regular,
   rounded_rect_op (W.fdiv 2 - 15) 176 (W.fdiv 2 - 15 + 30) 216 8 (.hex "#f8fafc"),
   .text (W.fdiv 2 - 15 + 8) 186 "<>" (.hex "#64748b") font_regular,
   rounded_rect_op (W.fdiv 2 + 25) 176 (W - 16) 216 8 (.hex "#f8fafc"),
   .text (W.fdiv 2 + 37) 186 "EUR - Euro" (.hex TEXT_DARK) font_regular]
  ++ ((List.range 100).map fun (i : ℕ) =>
      .line 16 (236 + (i : ℤ)) (W - 16) (236 + (i : ℤ)) (rgbFill (resultCardColor i)) 0)
  ++ [rounded_rect_op 16 236 (W - 16) 336 12 .noFill,
      .text 32 248 "1,000.00 USD =" (.hex "#ffffffcc") font_small,
      .text 32 271 "920.45" (.hex WHITE) font_large,
      .text 136 281 "EUR" (.hex "#ffffffaa") font_regular,
      .text 32 311 "1 USD = 0.92045 EUR" (.hex "#ffffff99") font_small,
      rounded_rect_op 16 352 (W - 16) 392 8 (.hex PRIMARY_GRADIENT_START),
      .text ((W - save_text_width).fdiv 2) 363 "Save to History" (.hex WHITE) font_regular,
      .text 16 408 "QUICK ACCESS" (.hex "#64748b") font_small]
  ++ popupChipOps font_small

/-- create_mock_popup: a white RGBA canvas of the requested size filled
with the mock interface.  The textbbox call measuring the Save to
History label is not wrapped in a try block, so its failure raises;
the branching on it is hoisted to the top since an exception discards
the canvas anyway. -/
def create_mock_popup (env : FontEnv) (size : ℕ × ℕ) : Except PyExc Canvas :=
  match env.bbox (popupFonts env).2.1 "Save to History" with
  | none => .error .textMetrics
  | some bb =>
      .ok ⟨"RGBA", size.1, size.2, .rgba 255 255 255 255,
        popupOps env (size.1 : ℤ) (bb.2.2.1 - bb.1)⟩

/-- The two fonts of create_screenshot_1 (title, subtitle). -/
def screenshot1Fonts (env : FontEnv) : Font × Font :=
  match tryFonts env screenshot1FontReqs with
  | [a, b] => (a, b)
  | _ => (.default, .default)

/-- The shadow layer behind the popup of screenshot 1 before blurring. -/
def screenshot1Shadow : Canvas :=
  ⟨"RGBA", 380, 440, .rgba 0 0 0 0,
    [.roundedRectangle 10 10 370 430 16 (.rgba 0 0 0 80)]⟩

/-- Image.filter with a Gaussian blur: the result is an image of the
same geometry whose content is the blur of the original commands. -/
def image_filter_blur (c : Canvas) (radius : ℕ) : Canvas :=
  ⟨c.mode, c.width, c.height, c.bg, [.blur c.ops radius]⟩

/-- Image.paste of a source image at a position, using the source as
its own alpha mask. -/
def canvas_paste_op (src : Canvas) (x y : ℤ) : DrawOp :=
  .paste src.mode src.width src.height src.bg src.ops x y true

/-- create_screenshot_1: blue gradient, title text, then the mock popup
with its blurred drop shadow pasted on the right.  A failure inside
create_mock_popup propagates. -/
def create_screenshot_1 (env : FontEnv) : Except PyExc Canvas :=
  let fonts := screenshot1Fonts env
  let title_font := fonts.1
  let subtitle_font := fonts.2
  match create_mock_popup env (360, 420) with
  | .error e => .error e
  | .ok popup =>
      .ok ((create_gradient_background SCREENSHOT_SIZE PRIMARY_GRADIENT_START
              PRIMARY_GRADIENT_END).addOps
        ([.text 80 280 "Fast Currency" (.hex WHITE) title_font,
          .text 80 350 "Conversion" (.hex WHITE) title_font,
          .text 80 440 "200+ currencies including crypto" (.hex "#ffffffcc") subtitle_font,
          canvas_paste_op (image_filter_blur screenshot1Shadow 15) 770 170,
          canvas_paste_op popup 780 180]))

/-- The three fonts of create_screenshot_2 (title, subtitle, currency). -/
def screenshot2Fonts (env : FontEnv) : Font × Font × Font :=
  match tryFonts env screenshot2FontReqs with
  | [a, b, c] => (a, b, c)
  | _ => (.default, .default, .default)

/-- The currency card grid of screenshot 2. -/
def screenshot2Currencies : List (String × String) :=
  [("USD", "$"), ("EUR", "€"), ("GBP", "£"), ("JPY", "¥"),
   ("BTC", "₿"), ("ETH", "Ξ"), ("CAD", "C$"), ("AUD", "A$"),
   ("CHF", "Fr"), ("CNY", "¥"), ("INR", "₹"), ("KRW", "₩")]

/-- One card of the screenshot 2 grid: rounded card, symbol, code. -/
def screenshot2CardOps (title_font currency_font : Font) : List DrawOp :=
  (screenshot2Currencies.enum.map fun p =>
    let i := p.1
    let code := p.2.1
    let symbol := p.2.2
    let row : ℕ := i / 4
    let col : ℕ := i % 4
    let x : ℤ := 720 + (col : ℤ) * (120 + 16)
    let y : ℤ := 180 + (row : ℤ) * (80 + 16)
    [DrawOp.roundedRectangle x y (x + 120) (y + 80) 12 (.hex "#ffffff20"),
     .text (x + 15) (y + 15) symbol (.hex WHITE) title_font,
     .text (x + 15) (y + 55) code (.hex "#ffffffaa") currency_font]).flatten

/-- create_screenshot_2: green gradient, title text and the currency
card grid.  No fallible call is made outside the font try block, so it
always returns a canvas. -/
def create_screenshot_2 (env : FontEnv) : Except PyExc Canvas :=
  let fonts := screenshot2Fonts env
  let title_font := fonts.1
  let subtitle_font := fonts.2.1
  let currency_font := fonts.2.2
  .ok ((create_gradient_background SCREENSHOT_SIZE "#10b981" "#059669").addOps
    ([.text 80 280 "200+ Currencies" (.hex WHITE) title_font,
      .text 80 360 "Including Crypto" (.hex WHITE) title_font,
      .text 80 450 "Bitcoin, Ethereum, and more" (.hex "#ffffffcc") subtitle_font]
     ++ screenshot2CardOps title_font currency_font))

/-- The two fonts of create_screenshot_3 (title, subtitle). -/
def screenshot3Fonts (env : FontEnv) : Font × Font :=
  match tryFonts env screenshot3FontReqs with
  | [a, b] => (a, b)
  | _ => (.default, .default)

/-- create_screenshot_3: purple gradient, title text and a clock face
built from an outlined circle, two hands and a center dot. -/
def create_screenshot_3 (env : FontEnv) : Except PyExc Canvas :=
  let fonts := screenshot3Fonts env
  let title_font := fonts.1
  let subtitle_font := fonts.2
  .ok ((create_gradient_background SCREENSHOT_SIZE "#8b5cf6" "#6d28d9").addOps
    [.text 80 300 "Real-time Rates" (.hex WHITE) title_font,
     .text 80 380 "Always Up to Date" (.hex WHITE) title_font,
     .text 80 470 "Free, no signup required" (.hex "#ffffffcc") subtitle_font,
     .ellipse 750 250 1050 550 .noFill (.hex WHITE) 8,
     .line 900 400 900 320 (.hex WHITE) 6,
     .line 900 400 960 440 (.hex WHITE) 6,
     .ellipse 890 390 910 410 (.hex WHITE) .noFill 0])

/-- The three fonts of create_promo_tile (title, subtitle, symbol). -/
def promoTileFonts (env : FontEnv) : Font × Font × Font :=
  match tryFonts env promoTileFontReqs with
  | [a, b, c] => (a, b, c)
  | _ => (.default, .default, .default)

/-- create_promo_tile: the 440 by 280 gradient tile with the currency
lockup, the product name and two description lines. -/
def create_promo_tile (env : FontEnv) : Except PyExc Canvas :=
  let fonts := promoTileFonts env
  let title_font := fonts.1
  let subtitle_font := fonts.2.1
  let symbol_font := fonts.2.2
  .ok ((create_gradient_background PROMO_TILE_SIZE PRIMARY_GRADIENT_START
          PRIMARY_GRADIENT_END).addOps
    [.text 40 60 "$" (.hex WHITE) symbol_font,
     .text 90 70 "<>" (.hex ACCENT) title_font,
     .text 150 60 "€" (.hex WHITE) symbol_font,
     .text 40 140 "QuickCurrency" (.hex WHITE) title_font,
     .text 40 185 "Fast currency converter" (.hex "#ffffffcc") subtitle_font,
     .text 40 215 "200+ currencies" (.hex "#ffffffaa") subtitle_font])

end Store

namespace Icons

/-- The icon sizes required by Chrome extensions. -/
def SIZES : List ℕ := [16, 32, 48, 96, 128]

def PRIMARY_COLOR : PColor := .rgb 37 99 235

def PRIMARY_DARK : PColor := .rgb 30 64 175

def PRIMARY_LIGHT : PColor := .rgb 59 130 246

def WHITE : PColor := .rgb 255 255 255

def GREEN : PColor := .rgb 16 185 129

def sfnsMonoPath : String := "/System/Library/Fonts/SFNSMono.ttf"

/-- get_font of create-icons.py: clamp the size to at least 8, then try
Helvetica, then SFNSMono, then the built-in default font. -/
def get_font (env : FontEnv) (size : ℕ) : Font :=
  let sz := max 8 size
  if env.load helveticaPath sz then .truetype helveticaPath sz
  else if env.load sfnsMonoPath sz then .truetype sfnsMonoPath sz
  else .default

/-- margin = int(size * 0.08). -/
def margin (size : ℕ) : ℕ := size * 8 / 100

/-- coin_size = int(size * 0.62). -/
def coin_size (size : ℕ) : ℕ := size * 62 / 100

/-- inner_margin = max(1, int(coin_size * 0.08)). -/
def inner_margin (size : ℕ) : ℕ := max 1 (coin_size size * 8 / 100)

/-- font_size = max(10, int(coin_size * 0.45)). -/
def font_size (size : ℕ) : ℕ := max 10 (coin_size size * 45 / 100)

def coin1_x (size : ℕ) : ℤ := margin size

def coin1_y (size : ℕ) : ℤ := margin size

def coin2_x (size : ℕ) : ℤ := (size : ℤ) - (margin size : ℤ) - (coin_size size : ℤ)

def coin2_y (size : ℕ) : ℤ := (size : ℤ) - (margin size : ℤ) - (coin_size size : ℤ)

/-- Measured width and height of a string: from textbbox when it
succeeds, and the approximate fallback (font_size // 2, font_size)
otherwise. -/
def textSize (env : FontEnv) (f : Font) (s : String) (fsz : ℕ) : ℤ × ℤ :=
  match env.bbox f s with
  | some bb => (bb.2.2.1 - bb.1, bb.2.2.2 - bb.2.1)
  | none => (((fsz / 2 : ℕ) : ℤ), (fsz : ℤ))

/-- Position of the dollar glyph: horizontally and vertically centered
on the front coin from the measured text size, shifted up by
int(size * 0.02). -/
def dollar_pos (env : FontEnv) (size : ℕ) : ℤ × ℤ :=
  let f := get_font env (font_size size)
  let tw := (textSize env f "$" (font_size size)).1
  let th := (textSize env f "$" (font_size size)).2
  (coin1_x size + ((coin_size size : ℤ) - tw).fdiv 2,
   coin1_y size + ((coin_size size : ℤ) - th).fdiv 2 - ((size * 2 / 100 : ℕ) : ℤ))

/-- Position of the euro glyph on the back coin, computed like the
dollar glyph. -/
def euro_pos (env : FontEnv) (size : ℕ) : ℤ × ℤ :=
  let f := get_font env (font_size size)
  let tw := (textSize env f "€" (font_size size)).1
  let th := (textSize env f "€" (font_size size)).2
  (coin2_x size + ((coin_size size : ℤ) - tw).fdiv 2,
   coin2_y size + ((coin_size size : ℤ) - th).fdiv 2 - ((size * 2 / 100 : ℕ) : ℤ))

/-- The unconditional drawing commands: the two coins with their inner
depth circles and the dollar glyph on the front coin. -/
def base_ops (env : FontEnv) (size : ℕ) : List DrawOp :=
  [.ellipse (coin2_x size) (coin2_y size)
      (coin2_x size + (coin_size size : ℤ)) (coin2_y size + (coin_size size : ℤ))
      PRIMARY_DARK .noFill 0,
   .ellipse (coin2_x size + (inner_margin size : ℤ)) (coin2_y size + (inner_margin size : ℤ))
      (coin2_x size + (coin_size size : ℤ) - (inner_margin size : ℤ))
      (coin2_y size + (coin_size size : ℤ) - (inner_margin size : ℤ))
      (.rgb 35 75 190) .noFill 0,
   .ellipse (coin1_x size) (coin1_y size)
      (coin1_x size + (coin_size size : ℤ)) (coin1_y size + (coin_size size : ℤ))
      PRIMARY_COLOR .noFill 0,
   .ellipse (coin1_x size + (inner_margin size : ℤ)) (coin1_y size + (inner_margin size : ℤ))
      (coin1_x size + (coin_size size : ℤ) - (inner_margin size : ℤ))
      (coin1_y size + (coin_size size : ℤ) - (inner_margin size : ℤ))
      PRIMARY_LIGHT .noFill 0,
   .text (dollar_pos env size).1 (dollar_pos env size).2 "$" WHITE
      (get_font env (font_size size))]

/-- The euro glyph drawn only when size is at least 32. -/
def euro_ops (env : FontEnv) (size : ℕ) : List DrawOp :=
  [.text (euro_pos env size).1 (euro_pos env size).2 "€" (.rgb 220 225 240)
      (get_font env (font_size size))]

/-- The two green exchange arrows with triangular heads drawn only when
size is at least 48. -/
def arrow_ops (size : ℕ) : List DrawOp :=
  let arrow_thickness := max 2 (size * 25 / 1000)
  let center_x : ℤ := ((size / 2 : ℕ) : ℤ)
  let center_y : ℤ := ((size / 2 : ℕ) : ℤ)
  let arrow_len : ℤ := ((size * 10 / 100 : ℕ) : ℤ)
  let arrow_head : ℤ := ((max 3 (size * 4 / 100) : ℕ) : ℤ)
  let arrow_y1 := center_y - ((size * 5 / 100 : ℕ) : ℤ)
  let arrow_y2 := center_y + ((size * 5 / 100 : ℕ) : ℤ)
  [.line (center_x - arrow_len) arrow_y1 (center_x + arrow_len) arrow_y1 GREEN arrow_thickness,
   .polygon [(center_x + arrow_len, arrow_y1),
             (center_x + arrow_len - arrow_head, arrow_y1 - arrow_head),
             (center_x + arrow_len - arrow_head, arrow_y1 + arrow_head)] GREEN,
   .line (center_x + arrow_len) arrow_y2 (center_x - arrow_len) arrow_y2 GREEN arrow_thickness,
   .polygon [(center_x - arrow_len, arrow_y2),
             (center_x - arrow_len + arrow_head, arrow_y2 - arrow_head),
             (center_x - arrow_len + arrow_head, arrow_y2 + arrow_head)] GREEN]

/-- create_currency_icon of create-icons.py: a transparent square RGBA
canvas of the given size, the two coins and dollar glyph, the euro
glyph when size is at least 32, and the exchange arrows when size is
at least 48. -/
def create_currency_icon (env : FontEnv) (size : ℕ) : Canvas :=
  ⟨"RGBA", size, size, .rgba 0 0 0 0,
    base_ops env size
      ++ (if 32 ≤ size then euro_ops env size else [])
      ++ (if 48 ≤ size then arrow_ops size else [])⟩

end Icons

namespace Store

lemma clamp01_nonneg (q : ℚ) : 0 ≤ clamp01 q :=
  le_min (by norm_num) (le_max_left 0 q)

lemma clamp01_le_one (q : ℚ) : clamp01 q ≤ 1 :=
  min_le_left 1 _

lemma clamp01_mono {q1 q2 : ℚ} (h : q1 ≤ q2) : clamp01 q1 ≤ clamp01 q2 :=
  min_le_min (le_refl 1) (max_le_max (le_refl 0) h)

lemma clamp01_eq_self {q : ℚ} (h0 : 0 ≤ q) (h1 : q ≤ 1) : clamp01 q = q := by
  unfold clamp01
  rw [max_eq_right h0, min_eq_right h1]

lemma gradientRatio_pos (y h : ℕ) : 0 < gradientRatio y h := by
  unfold gradientRatio
  positivity

lemma gradientRatio_lt_one {y h : ℕ} (hh : 1 ≤ h) (hy : y < h) :
    gradientRatio y h < 1 := by
  have h1 : (1 : ℚ) ≤ (h : ℚ) := by exact_mod_cast hh
  have hp : (0 : ℚ) < (h : ℚ) := by linarith
  have hyq : (y : ℚ) / (h : ℚ) < 1 := by
    rw [div_lt_one hp]
    exact_mod_cast hy
  unfold gradientRatio
  rw [div_lt_one (by norm_num : (0 : ℚ) < 13 / 10)]
  linarith

lemma gradientRatio_mono {y1 y2 h : ℕ} (hh : 1 ≤ h) (h12 : y1 ≤ y2) :
    gradientRatio y1 h ≤ gradientRatio y2 h := by
  have h1 : (1 : ℚ) ≤ (h : ℚ) := by exact_mod_cast hh
  have hp : (0 : ℚ) < (h : ℚ) := by linarith
  have hd : (y1 : ℚ) / (h : ℚ) ≤ (y2 : ℚ) / (h : ℚ) :=
    (div_le_div_iff_of_pos_right hp).mpr (by exact_mod_cast h12)
  unfold gradientRatio
  exact (div_le_div_iff_of_pos_right (by norm_num : (0 : ℚ) < 13 / 10)).mpr (by linarith)

lemma interp_val_nonneg (a b : ℕ) {t : ℚ} (h0 : 0 ≤ t) (h1 : t ≤ 1) :
    0 ≤ (a : ℚ) + ((b : ℚ) - (a : ℚ)) * t := by
  have ha : (0 : ℚ) ≤ (a : ℚ) := Nat.cast_nonneg a
  have hb : (0 : ℚ) ≤ (b : ℚ) := Nat.cast_nonneg b
  have h2 : 0 ≤ (a : ℚ) * (1 - t) := mul_nonneg ha (by linarith)
  have h3 : 0 ≤ (b : ℚ) * t := mul_nonneg hb h0
  nlinarith [h2, h3]

lemma interpChannel_eq_floor (a b : ℕ) {t : ℚ} (h0 : 0 ≤ t) (h1 : t ≤ 1) :
    interpChannel a b t = (⌊(a : ℚ) + ((b : ℚ) - (a : ℚ)) * t⌋).toNat := by
  unfold interpChannel pyInt
  rw [if_pos (interp_val_nonneg a b h0 h1)]

lemma interpChannel_mono_of_le (a b : ℕ) {t1 t2 : ℚ} (hab : a ≤ b)
    (h0 : 0 ≤ t1) (h12 : t1 ≤ t2) (h1 : t2 ≤ 1) :
    interpChannel a b t1 ≤ interpChannel a b t2 := by
  rw [interpChannel_eq_floor a b h0 (le_trans h12 h1),
      interpChannel_eq_floor a b (le_trans h0 h12) h1]
  apply Int.toNat_le_toNat
  apply Int.floor_le_floor
  have hba : (0 : ℚ) ≤ (b : ℚ) - (a : ℚ) := by
    have : (a : ℚ) ≤ (b : ℚ) := by exact_mod_cast hab
    linarith
  nlinarith [mul_nonneg hba (sub_nonneg.mpr h12)]

lemma interpChannel_anti_of_ge (a b : ℕ) {t1 t2 : ℚ} (hba : b ≤ a)
    (h0 : 0 ≤ t1) (h12 : t1 ≤ t2) (h1 : t2 ≤ 1) :
    interpChannel a b t2 ≤ interpChannel a b t1 := by
  rw [interpChannel_eq_floor a b h0 (le_trans h12 h1),
      interpChannel_eq_floor a b (le_trans h0 h12) h1]
  apply Int.toNat_le_toNat
  apply Int.floor_le_floor
  have hab : (0 : ℚ) ≤ (a : ℚ) - (b : ℚ) := by
    have : (b : ℚ) ≤ (a : ℚ) := by exact_mod_cast hba
    linarith
  nlinarith [mul_nonneg hab (sub_nonneg.mpr h12)]

lemma interpChannel_bounds (a b : ℕ) {t : ℚ} (h0 : 0 ≤ t) (h1 : t ≤ 1) :
    min a b ≤ interpChannel a b t ∧ interpChannel a b t ≤ max a b := by
  rw [interpChannel_eq_floor a b h0 h1]
  rcases le_total a b with hab | hba
  · have haq : (a : ℚ) ≤ (b : ℚ) := by exact_mod_cast hab
    have hlo : ((a : ℤ) : ℚ) ≤ (a : ℚ) + ((b : ℚ) - (a : ℚ)) * t := by
      push_cast
      nlinarith [mul_nonneg (by linarith : (0:ℚ) ≤ (b : ℚ) - (a : ℚ)) h0]
    have hhi : (a : ℚ) + ((b : ℚ) - (a : ℚ)) * t ≤ ((b : ℤ) : ℚ) := by
      push_cast
      nlinarith [mul_nonneg (by linarith : (0:ℚ) ≤ (b : ℚ) - (a : ℚ)) (by linarith : (0:ℚ) ≤ 1 - t)]
    have h2 := Int.le_floor.mpr hlo
    have h3 : ⌊(a : ℚ) + ((b : ℚ) - (a : ℚ)) * t⌋ ≤ (b : ℤ) :=
      le_trans (Int.floor_le_floor hhi) (by simp)
    omega
  · have hbq : (b : ℚ) ≤ (a : ℚ) := by exact_mod_cast hba
    have hlo : ((b : ℤ) : ℚ) ≤ (a : ℚ) + ((b : ℚ) - (a : ℚ)) * t := by
      push_cast
      nlinarith [mul_nonneg (by linarith : (0:ℚ) ≤ (a : ℚ) - (b : ℚ)) (by linarith : (0:ℚ) ≤ 1 - t)]
    have hhi : (a : ℚ) + ((b : ℚ) - (a : ℚ)) * t ≤ ((a : ℤ) : ℚ) := by
      push_cast
      nlinarith [mul_nonneg (by linarith : (0:ℚ) ≤ (a : ℚ) - (b : ℚ)) h0]
    have h2 := Int.le_floor.mpr hlo
    have h3 : ⌊(a : ℚ) + ((b : ℚ) - (a : ℚ)) * t⌋ ≤ (a : ℤ) :=
      le_trans (Int.floor_le_floor hhi) (by simp)
    omega

/-- Linear interpolation between two colors at a ratio, channelwise,
with channels truncated to integers: the formula the specification
describes for the gradient rows. -/
def specLinearInterpolation (s e : RGB) (t : ℚ) : RGB :=
  ((⌊(s.1 : ℚ) + ((e.1 : ℚ) - (s.1 : ℚ)) * t⌋).toNat,
   (⌊(s.2.1 : ℚ) + ((e.2.1 : ℚ) - (s.2.1 : ℚ)) * t⌋).toNat,
   (⌊(s.2.2 : ℚ) + ((e.2.2 : ℚ) - (s.2.2 : ℚ)) * t⌋).toNat)

lemma gradientRowColor_eq_spec (s e : RGB) (y h : ℕ) :
    gradientRowColor s e y h =
      specLinearInterpolation s e (clamp01 (gradientRatio y h)) := by
  have h0 := clamp01_nonneg (gradientRatio y h)
  have h1 := clamp01_le_one (gradientRatio y h)
  simp only [gradientRowColor, specLinearInterpolation]
  rw [interpChannel_eq_floor _ _ h0 h1, interpChannel_eq_floor _ _ h0 h1,
      interpChannel_eq_floor _ _ h0 h1]

lemma cgb_rowFill (w h y : ℕ) (sc ec : String) (hy : y < h) :
    (create_gradient_background (w, h) sc ec).rowFill y =
      rgbFill (gradientRowColor (hex_to_rgb sc) (hex_to_rgb ec) y h) := by
  unfold create_gradient_background Canvas.rowFill
  simp only [List.getElem?_map, List.getElem?_range, hy, if_pos]
  rfl

lemma gradientRatio_zero (h : ℕ) : gradientRatio 0 h = 3 / 13 := by
  unfold gradientRatio
  push_cast
  rw [zero_div]
  norm_num

lemma clamp01_ratio_zero : clamp01 (3 / 13 : ℚ) = 3 / 13 :=
  clamp01_eq_self (by norm_num) (by norm_num)

lemma gradientRatio_last_gt {h : ℕ} (h47 : 47 ≤ h) :
    59 / 60 < gradientRatio (h - 1) h := by
  have h1 : (1 : ℕ) ≤ h := by omega
  have hx : (47 : ℚ) ≤ (h : ℚ) := by exact_mod_cast h47
  have hxpos : (0 : ℚ) < (h : ℚ) := by linarith
  have hcast : ((h - 1 : ℕ) : ℚ) = (h : ℚ) - 1 := by
    rw [Nat.cast_sub h1, Nat.cast_one]
  have hb : (1 : ℚ) / (h : ℚ) ≤ 1 / 47 :=
    one_div_le_one_div_of_le (by norm_num) hx
  have key : ((h : ℚ) - 1) / (h : ℚ) = 1 - 1 / (h : ℚ) := by
    rw [sub_div, div_self (ne_of_gt hxpos)]
  unfold gradientRatio
  rw [hcast, key, lt_div_iff₀ (by norm_num : (0 : ℚ) < 13 / 10)]
  linarith

lemma interpChannel_end (a b : ℕ) (hba : b < a) {t : ℚ} (h1 : t ≤ 1)
    (h2 : 1 - 1 / ((a : ℚ) - (b : ℚ)) < t) : interpChannel a b t = b := by
  have hd : (0 : ℚ) < (a : ℚ) - (b : ℚ) := by
    have : (b : ℚ) < (a : ℚ) := by exact_mod_cast hba
    linarith
  have h4 : 1 - t < 1 / ((a : ℚ) - (b : ℚ)) := by linarith
  have h5 : ((a : ℚ) - (b : ℚ)) * (1 - t) < 1 := by
    have h6 := mul_lt_mul_of_pos_left h4 hd
    rwa [mul_one_div, div_self (ne_of_gt hd)] at h6
  have hvlo : (b : ℚ) ≤ (a : ℚ) + ((b : ℚ) - (a : ℚ)) * t := by
    nlinarith [mul_nonneg hd.le (by linarith : (0 : ℚ) ≤ 1 - t)]
  have hvhi : (a : ℚ) + ((b : ℚ) - (a : ℚ)) * t < (b : ℚ) + 1 := by
    nlinarith [h5]
  have hnn : (0 : ℚ) ≤ (a : ℚ) + ((b : ℚ) - (a : ℚ)) * t :=
    le_trans (Nat.cast_nonneg b) hvlo
  unfold interpChannel pyInt
  rw [if_pos hnn]
  have hfl : ⌊(a : ℚ) + ((b : ℚ) - (a : ℚ)) * t⌋ = (b : ℤ) := by
    rw [Int.floor_eq_iff]
    constructor
    · push_cast
      exact hvlo
    · push_cast
      exact hvhi
  rw [hfl]
  simp

lemma gradChannelFacts (a b h y1 y2 : ℕ) (hh : 1 ≤ h) (h12 : y1 ≤ y2) :
    (a ≤ b → interpChannel a b (clamp01 (gradientRatio y1 h)) ≤
        interpChannel a b (clamp01 (gradientRatio y2 h))) ∧
    (b ≤ a → interpChannel a b (clamp01 (gradientRatio y2 h)) ≤
        interpChannel a b (clamp01 (gradientRatio y1 h))) ∧
    min a b ≤ interpChannel a b (clamp01 (gradientRatio y1 h)) ∧
    interpChannel a b (clamp01 (gradientRatio y1 h)) ≤ max a b := by
  have h0 := clamp01_nonneg (gradientRatio y1 h)
  have h1 := clamp01_le_one (gradientRatio y2 h)
  have hm := clamp01_mono (gradientRatio_mono hh h12)
  exact ⟨fun hab => interpChannel_mono_of_le a b hab h0 hm h1,
         fun hba => interpChannel_anti_of_ge a b hba h0 hm h1,
         (interpChannel_bounds a b h0 (clamp01_le_one _)).1,
         (interpChannel_bounds a b h0 (clamp01_le_one _)).2⟩

end Store

/-- Claim C9: the output of draw_rounded_rectangle is independent of its
shadow argument; for every draw target, coordinates, radius and fill,
the shadow=true and shadow=false calls produce identical results. -/
theorem C9_shadow_unread (c : Canvas) (xy : ℤ × ℤ × ℤ × ℤ) (radius : ℕ)
    (fill : PColor) :
    Store.draw_rounded_rectangle c xy radius fill true =
      Store.draw_rounded_rectangle c xy radius fill false := rfl

/-- Claim C10: for every height at least 1 and every row y below the
height, the raw gradient ratio (y / height + 0.3) / 1.3 lies strictly
between 0 and 1, so the clamp to the unit interval never changes it. -/
theorem C10_clamp_never_fires (h y : ℕ) (hh : 1 ≤ h) (hy : y < h) :
    0 < Store.gradientRatio y h ∧ Store.gradientRatio y h < 1 ∧
      Store.clamp01 (Store.gradientRatio y h) = Store.gradientRatio y h := by
  refine ⟨Store.gradientRatio_pos y h, Store.gradientRatio_lt_one hh hy, ?_⟩
  exact Store.clamp01_eq_self (le_of_lt (Store.gradientRatio_pos y h))
    (le_of_lt (Store.gradientRatio_lt_one hh hy))

/-- Witness for claim C10 at height 1, row 0. -/
theorem C10_clamp_never_fires_witness :
    0 < Store.gradientRatio 0 1 ∧ Store.gradientRatio 0 1 < 1 ∧
      Store.clamp01 (Store.gradientRatio 0 1) = Store.gradientRatio 0 1 :=
  C10_clamp_never_fires 1 0 (by decide) (by decide)

/-- Claim C5: for every pair of colors and height at least 1, each RGB
channel of the gradient row colors is monotonic in y in the direction
given by the sign of the end channel minus the start channel, and every
row channel lies between the two endpoint channel values. -/
theorem C5_gradient_monotone_bounded (s e : RGB) (h y1 y2 : ℕ)
    (hh : 1 ≤ h) (h12 : y1 ≤ y2) (h2 : y2 < h) :
    ((s.1 ≤ e.1 → (Store.gradientRowColor s e y1 h).1 ≤ (Store.gradientRowColor s e y2 h).1) ∧
     (e.1 ≤ s.1 → (Store.gradientRowColor s e y2 h).1 ≤ (Store.gradientRowColor s e y1 h).1) ∧
     min s.1 e.1 ≤ (Store.gradientRowColor s e y1 h).1 ∧
     (Store.gradientRowColor s e y1 h).1 ≤ max s.1 e.1) ∧
    ((s.2.1 ≤ e.2.1 → (Store.gradientRowColor s e y1 h).2.1 ≤ (Store.gradientRowColor s e y2 h).2.1) ∧
     (e.2.1 ≤ s.2.1 → (Store.gradientRowColor s e y2 h).2.1 ≤ (Store.gradientRowColor s e y1 h).2.1) ∧
     min s.2.1 e.2.1 ≤ (Store.gradientRowColor s e y1 h).2.1 ∧
     (Store.gradientRowColor s e y1 h).2.1 ≤ max s.2.1 e.2.1) ∧
    ((s.2.2 ≤ e.2.2 → (Store.gradientRowColor s e y1 h).2.2 ≤ (Store.gradientRowColor s e y2 h).2.2) ∧
     (e.2.2 ≤ s.2.2 → (Store.gradientRowColor s e y2 h).2.2 ≤ (Store.gradientRowColor s e y1 h).2.2) ∧
     min s.2.2 e.2.2 ≤ (Store.gradientRowColor s e y1 h).2.2 ∧
     (Store.gradientRowColor s e y1 h).2.2 ≤ max s.2.2 e.2.2) :=
  ⟨Store.gradChannelFacts s.1 e.1 h y1 y2 hh h12,
   Store.gradChannelFacts s.2.1 e.2.1 h y1 y2 hh h12,
   Store.gradChannelFacts s.2.2 e.2.2 h y1 y2 hh h12⟩

/-- Witness for claim C5: the red channel is nondecreasing from row 0
to row 2 of a 3-row gradient from (10, 200, 30) to (255, 100, 30). -/
theorem C5_gradient_monotone_bounded_witness :
    (Store.gradientRowColor (10, 200, 30) (255, 100, 30) 0 3).1 ≤
      (Store.gradientRowColor (10, 200, 30) (255, 100, 30) 2 3).1 :=
  ((C5_gradient_monotone_bounded (10, 200, 30) (255, 100, 30) 3 0 2
      (by decide) (by decide) (by decide)).1).1 (by decide)

/-- Claim C1 (amended): every gradient row is colored by the linear
interpolation at the clamped ratio (y / height + 0.3) / 1.3; row 0 is
colored by the interpolation at ratio 0.3 / 1.3 and not by the raw
start color; and with the default colors the pure end color is reached
at the bottom row whenever the height is at least 47 (not for every
height, as the counterexample at height 1 shows). -/
theorem C1_gradient_rows (w h : ℕ) (sc ec : String) (hh : 1 ≤ h) :
    (∀ y, y < h →
      (Store.create_gradient_background (w, h) sc ec).rowFill y =
        Store.rgbFill (Store.specLinearInterpolation (Store.hex_to_rgb sc)
          (Store.hex_to_rgb ec) (Store.clamp01 (Store.gradientRatio y h)))) ∧
    (Store.create_gradient_background (w, h) sc ec).rowFill 0 =
      Store.rgbFill (Store.specLinearInterpolation (Store.hex_to_rgb sc)
        (Store.hex_to_rgb ec) (3 / 13)) ∧
    (47 ≤ h → sc = "#2563eb" → ec = "#1e40af" →
      (Store.create_gradient_background (w, h) sc ec).rowFill (h - 1) =
        PColor.rgb 30 64 175) := by
  refine ⟨fun y hy => ?_, ?_, fun h47 hsc hec => ?_⟩
  · rw [Store.cgb_rowFill w h y sc ec hy, Store.gradientRowColor_eq_spec]
  · rw [Store.cgb_rowFill w h 0 sc ec (by omega), Store.gradientRowColor_eq_spec,
        Store.gradientRatio_zero, Store.clamp01_ratio_zero]
  · subst hsc
    subst hec
    rw [Store.cgb_rowFill w h (h - 1) _ _ (by omega)]
    have hxs : Store.hex_to_rgb "#2563eb" = (37, 99, 235) := by decide
    have hxe : Store.hex_to_rgb "#1e40af" = (30, 64, 175) := by decide
    have hlt1 : Store.gradientRatio (h - 1) h < 1 :=
      Store.gradientRatio_lt_one (by omega) (by omega)
    have hgt : 59 / 60 < Store.gradientRatio (h - 1) h :=
      Store.gradientRatio_last_gt h47
    have hcl : Store.clamp01 (Store.gradientRatio (h - 1) h) =
        Store.gradientRatio (h - 1) h :=
      Store.clamp01_eq_self (le_of_lt (Store.gradientRatio_pos _ _)) (le_of_lt hlt1)
    rw [hxs, hxe]
    show Store.rgbFill
        (Store.interpChannel 37 30 (Store.clamp01 (Store.gradientRatio (h - 1) h)),
         Store.interpChannel 99 64 (Store.clamp01 (Store.gradientRatio (h - 1) h)),
         Store.interpChannel 235 175 (Store.clamp01 (Store.gradientRatio (h - 1) h))) =
      PColor.rgb 30 64 175
    rw [hcl]
    rw [Store.interpChannel_end 37 30 (by norm_num) (le_of_lt hlt1)
          (by push_cast; norm_num; linarith [hgt]),
        Store.interpChannel_end 99 64 (by norm_num) (le_of_lt hlt1)
          (by push_cast; norm_num; linarith [hgt]),
        Store.interpChannel_end 235 175 (by norm_num) (le_of_lt hlt1)
          (by push_cast; norm_num; linarith [hgt])]
    rfl

/-- Counterexample for claim C1 as frozen: at height 1 with the default
colors the gradient has a single row, row 0, and its color is
(35, 90, 221), not the pure end color (30, 64, 175); so no row equals
the end color. -/
theorem C1_gradient_rows_counterexample :
    (Store.create_gradient_background (4, 1) "#2563eb" "#1e40af").ops.length = 1 ∧
    (Store.create_gradient_background (4, 1) "#2563eb" "#1e40af").rowFill 0 =
      PColor.rgb 35 90 221 ∧
    ((PColor.rgb 35 90 221 == PColor.rgb 30 64 175) = false) := by
  refine ⟨?_, ?_, by decide⟩
  · simp [Store.create_gradient_background]
  · rw [Store.cgb_rowFill 4 1 0 _ _ (by norm_num)]
    rw [show Store.hex_to_rgb "#2563eb" = (37, 99, 235) from by decide]
    rw [show Store.hex_to_rgb "#1e40af" = (30, 64, 175) from by decide]
    show Store.rgbFill
        (Store.interpChannel 37 30 (Store.clamp01 (Store.gradientRatio 0 1)),
         Store.interpChannel 99 64 (Store.clamp01 (Store.gradientRatio 0 1)),
         Store.interpChannel 235 175 (Store.clamp01 (Store.gradientRatio 0 1))) = _
    rw [Store.gradientRatio_zero, Store.clamp01_ratio_zero]
    rw [show Store.interpChannel 37 30 (3 / 13) = 35 from by
          unfold Store.interpChannel pyInt; norm_num; rfl,
        show Store.interpChannel 99 64 (3 / 13) = 90 from by
          unfold Store.interpChannel pyInt; norm_num; rfl,
        show Store.interpChannel 235 175 (3 / 13) = 221 from by
          unfold Store.interpChannel pyInt; norm_num; rfl]
    rfl

/-- Witness for claim C1: at height 47 with the default colors the
bottom row reaches the pure end color. -/
theorem C1_gradient_rows_witness :
    (Store.create_gradient_background (1, 47) "#2563eb" "#1e40af").rowFill 46 =
      PColor.rgb 30 64 175 := by
  have h := (C1_gradient_rows 1 47 "#2563eb" "#1e40af" (by norm_num)).2.2
    (by norm_num) rfl rfl
  simpa using h

/-- Claim C3: the exchange arrows are drawn exactly when the size is at
least 48: no drawing command of the icon uses the green arrow fill
below that threshold and some command does at or above it; in
particular the 16 pixel icon has no green commands and the 128 pixel
icon does. -/
theorem C3_arrows_iff_48 :
    (∀ env size,
      (Icons.create_currency_icon env size).usesFill Icons.GREEN = true ↔ 48 ≤ size) ∧
    (Icons.create_currency_icon noFonts 16).usesFill Icons.GREEN = false ∧
    (Icons.create_currency_icon noFonts 128).usesFill Icons.GREEN = true := by
  refine ⟨fun env size => ?_, by decide, by decide⟩
  unfold Canvas.usesFill Icons.create_currency_icon
  simp only [List.any_append]
  have hbase : (Icons.base_ops env size).any (fun op => op.fillOf == Icons.GREEN) = false := by
    simp [Icons.base_ops, DrawOp.fillOf, Icons.GREEN, Icons.PRIMARY_DARK,
      Icons.PRIMARY_COLOR, Icons.PRIMARY_LIGHT, Icons.WHITE]
  have heuro : ((if 32 ≤ size then Icons.euro_ops env size else []).any
      (fun op => op.fillOf == Icons.GREEN)) = false := by
    by_cases h32 : 32 ≤ size <;>
      simp [h32, Icons.euro_ops, DrawOp.fillOf, Icons.GREEN]
  by_cases h48 : 48 ≤ size
  · have harrow : (Icons.arrow_ops size).any (fun op => op.fillOf == Icons.GREEN) = true := by
      simp [Icons.arrow_ops, DrawOp.fillOf]
    simp [h48, hbase, heuro, harrow]
  · simp [h48, hbase, heuro]

/-- Claim C4: the icon always draws exactly one dollar glyph, at the
position horizontally centered on the front coin, and draws the euro
glyph on the back coin exactly when the size is at least 32. -/
theorem C4_glyphs_iff_32 (env : FontEnv) (size : ℕ) :
    (Icons.create_currency_icon env size).textOps "$" = [Icons.dollar_pos env size] ∧
    (Icons.create_currency_icon env size).textOps "€" =
      (if 32 ≤ size then [Icons.euro_pos env size] else []) ∧
    (Icons.dollar_pos env size).1 =
      Icons.coin1_x size + ((Icons.coin_size size : ℤ) -
        (Icons.textSize env (Icons.get_font env (Icons.font_size size)) "$"
          (Icons.font_size size)).1).fdiv 2 := by
  refine ⟨?_, ?_, rfl⟩
  · unfold Canvas.textOps Icons.create_currency_icon
    simp only [List.filterMap_append]
    by_cases h32 : 32 ≤ size <;> by_cases h48 : 48 ≤ size <;>
      simp [h32, h48, Icons.base_ops, Icons.euro_ops, Icons.arrow_ops]
  · unfold Canvas.textOps Icons.create_currency_icon
    simp only [List.filterMap_append]
    by_cases h32 : 32 ≤ size <;> by_cases h48 : 48 ≤ size <;>
      simp [h32, h48, Icons.base_ops, Icons.euro_ops, Icons.arrow_ops]

/-- Claim C7: for every configured icon size the icon canvas is the
transparent square RGBA canvas of exactly that size. -/
theorem C7_icon_canvas (env : FontEnv) (size : ℕ) (hs : size ∈ Icons.SIZES) :
    (Icons.create_currency_icon env size).width = size ∧
    (Icons.create_currency_icon env size).height = size ∧
    (Icons.create_currency_icon env size).mode = "RGBA" ∧
    (Icons.create_currency_icon env size).bg = PColor.rgba 0 0 0 0 :=
  ⟨rfl, rfl, rfl, rfl⟩

/-- Witness for claim C7 at the configured size 16. -/
theorem C7_icon_canvas_witness :
    (Icons.create_currency_icon noFonts 16).width = 16 ∧
    (Icons.create_currency_icon noFonts 16).height = 16 ∧
    (Icons.create_currency_icon noFonts 16).mode = "RGBA" ∧
    (Icons.create_currency_icon noFonts 16).bg = PColor.rgba 0 0 0 0 :=
  C7_icon_canvas noFonts 16 (by decide)

/-- Claim C8 (amended): for every configured size the margin is the
integer truncation of 8 percent of the size and the coin diameter the
integer truncation of 62 percent of the size (not those percentages
exactly, which are fractional at every configured size), and the glyph
font size is 45 percent of the coin diameter truncated, with an
enforced lower floor of 10. -/
theorem C8_icon_metrics (size : ℕ) (hs : size ∈ Icons.SIZES) :
    (Icons.margin size : ℤ) = ⌊(8 : ℚ) / 100 * (size : ℚ)⌋ ∧
    (Icons.coin_size size : ℤ) = ⌊(62 : ℚ) / 100 * (size : ℚ)⌋ ∧
    Icons.font_size size = max 10 (⌊(45 : ℚ) / 100 * (Icons.coin_size size : ℚ)⌋).toNat ∧
    10 ≤ Icons.font_size size := by
  fin_cases hs <;>
    norm_num [Icons.margin, Icons.coin_size, Icons.font_size] <;> rfl

/-- Witness for claim C8 at the configured size 16. -/
theorem C8_icon_metrics_witness :
    (Icons.margin 16 : ℤ) = ⌊(8 : ℚ) / 100 * (16 : ℚ)⌋ ∧
    (Icons.coin_size 16 : ℤ) = ⌊(62 : ℚ) / 100 * (16 : ℚ)⌋ ∧
    Icons.font_size 16 = max 10 (⌊(45 : ℚ) / 100 * (Icons.coin_size 16 : ℚ)⌋).toNat ∧
    10 ≤ Icons.font_size 16 :=
  C8_icon_metrics 16 (by decide)

/-- Counterexample for claim C8 as frozen: at size 16 the margin is 1
pixel while 8 percent of 16 is 1.28, and the coin diameter is 9 pixels
while 62 percent of 16 is 9.92; scaled by 100 the equalities fail. -/
theorem C8_icon_metrics_counterexample :
    100 * Icons.margin 16 = 100 ∧ ((100 * Icons.margin 16 == 8 * 16) = false) ∧
    100 * Icons.coin_size 16 = 900 ∧ ((100 * Icons.coin_size 16 == 62 * 16) = false) := by
  decide

/-- Claim C6: create_mock_popup either raises from the unprotected text
measurement or returns a canvas whose width and height are exactly the
requested size, whatever is drawn into it. -/
theorem C6_popup_dims (env : FontEnv) (w h : ℕ) :
    Store.create_mock_popup env (w, h) = Except.error Store.PyExc.textMetrics ∨
    ∃ c, Store.create_mock_popup env (w, h) = Except.ok c ∧
      c.width = w ∧ c.height = h := by
  unfold Store.create_mock_popup
  rcases hbb : env.bbox (Store.popupFonts env).2.1 "Save to History" with _ | bb
  · left
    rfl
  · right
    exact ⟨_, rfl, rfl, rfl⟩

/-- Claim C2 (amended): font loading failures are caught and replaced
by the default font at exactly five call sites of the store asset
script, one per create function; no create function ever raises an
exception caused by font loading: the only exception that can escape
is the unprotected text measurement of the mock popup, and the other
generators always return a canvas. -/
theorem C2_font_fallback_sites :
    Store.fontFallbackSites.length = 5 ∧
    (∀ env sz, Store.create_mock_popup env sz = Except.error Store.PyExc.textMetrics ∨
      ∃ c, Store.create_mock_popup env sz = Except.ok c) ∧
    (∀ env, Store.create_screenshot_1 env = Except.error Store.PyExc.textMetrics ∨
      ∃ c, Store.create_screenshot_1 env = Except.ok c) ∧
    (∀ env, ∃ c, Store.create_screenshot_2 env = Except.ok c) ∧
    (∀ env, ∃ c, Store.create_screenshot_3 env = Except.ok c) ∧
    (∀ env, ∃ c, Store.create_promo_tile env = Except.ok c) := by
  refine ⟨rfl, fun env sz => ?_, fun env => ?_,
    fun env => ⟨_, rfl⟩, fun env => ⟨_, rfl⟩, fun env => ⟨_, rfl⟩⟩
  · unfold Store.create_mock_popup
    rcases hbb : env.bbox (Store.popupFonts env).2.1 "Save to History" with _ | bb
    · left
      rfl
    · right
      exact ⟨_, rfl⟩
  · unfold Store.create_screenshot_1 Store.create_mock_popup
    rcases hbb : env.bbox (Store.popupFonts env).2.1 "Save to History" with _ | bb
    · left
      rfl
    · right
      exact ⟨_, rfl⟩

/-- Counterexample for claim C2 as frozen: the store asset script has
five font fallback sites, not four. -/
theorem C2_font_fallback_sites_counterexample :
    ((Store.fontFallbackSites.length == 4) = false) ∧
    Store.fontFallbackSites.length = 5 := by
  decide

end QuickCurrencySpec
